import Mathlib

/-!
Shallow embedding of the core of the `ireland-carbon-viz` repository:
the mix normalizer and intensity calculator (duplicated in
`src/data/mock.ts` and the EirGrid data module), the two synthetic
series generators, the provider-variant transform of `App.tsx`, and the
unimplemented ENTSO-E provider entrypoint.

Numbers are modelled over a linear ordered field (`ℚ` for executable
instances, `ℝ` where the code calls `Math.sin` / `Math.cos`); JavaScript
`Math.round` is `round` (both are `⌊x + 1/2⌋`).  Timestamps are modelled
as integer minutes; `Date.getHours() + Date.getMinutes()/60` becomes
`hourOfDay` on minutes mod 1440.
-/

namespace IrelandCarbonViz

/-- The seven-field record `GenerationMixBreakdown` of `src/types.ts`. -/
structure Mix (α : Type) where
  wind : α
  solar : α
  hydro : α
  gas : α
  coal : α
  biomass : α
  imports : α
deriving DecidableEq

/-- `Partial<GenerationMixBreakdown>`: every field may be absent. -/
structure RawMix (α : Type) where
  wind : Option α
  solar : Option α
  hydro : Option α
  gas : Option α
  coal : Option α
  biomass : Option α
  imports : Option α

variable {α : Type} [LinearOrderedField α]

/-- Sum of the seven fields, in `Object.values` insertion order. -/
def sumMix (m : Mix α) : α :=
  m.wind + m.solar + m.hydro + m.gas + m.coal + m.biomass + m.imports

/-- `raw.field ?? 0` applied to all seven fields (the `base` record built
at the top of `normalizeMix`). -/
def RawMix.withDefaults (raw : RawMix α) : Mix α where
  wind := raw.wind.getD 0
  solar := raw.solar.getD 0
  hydro := raw.hydro.getD 0
  gas := raw.gas.getD 0
  coal := raw.coal.getD 0
  biomass := raw.biomass.getD 0
  imports := raw.imports.getD 0

/-- Wrap a fully-populated mix as a `Partial` argument (an object literal
with all seven fields present). -/
def Mix.toRaw (m : Mix α) : RawMix α where
  wind := some m.wind
  solar := some m.solar
  hydro := some m.hydro
  gas := some m.gas
  coal := some m.coal
  biomass := some m.biomass
  imports := some m.imports

/-- `clamp(value, min, max) = Math.max(min, Math.min(max, value))` from
`src/data/mock.ts`. -/
def clamp (value lo hi : α) : α := max lo (min hi value)

/-- All seven fields non-negative. -/
def MixNonneg (m : Mix α) : Prop :=
  0 ≤ m.wind ∧ 0 ≤ m.solar ∧ 0 ≤ m.hydro ∧ 0 ≤ m.gas ∧ 0 ≤ m.coal ∧
    0 ≤ m.biomass ∧ 0 ≤ m.imports

/-- All seven fields strictly positive. -/
def MixPos (m : Mix α) : Prop :=
  0 < m.wind ∧ 0 < m.solar ∧ 0 < m.hydro ∧ 0 < m.gas ∧ 0 < m.coal ∧
    0 < m.biomass ∧ 0 < m.imports

namespace Mock

/-- The `EMISSION_FACTORS` constant of `src/data/mock.ts`. -/
def EMISSION_FACTORS : Mix α where
  wind := 12
  solar := 50
  hydro := 24
  gas := 400
  coal := 900
  biomass := 230
  imports := 300

/-- The fixed fallback distribution returned by `normalizeMix` when the
raw total is `<= 0`. -/
def fallbackMix : Mix α where
  wind := 0.3
  solar := 0.05
  hydro := 0.05
  gas := 0.45
  coal := 0.05
  biomass := 0.05
  imports := 0.05

/-- `normalizeMix` of `src/data/mock.ts`: default absent fields to 0, sum
the seven fields; if the total is `<= 0` return the fixed fallback
distribution, else divide every field by the total. -/
def normalizeMix (raw : RawMix α) : Mix α :=
  let base := raw.withDefaults
  let total := sumMix base
  if total ≤ 0 then fallbackMix
  else
    { wind := base.wind / total
      solar := base.solar / total
      hydro := base.hydro / total
      gas := base.gas / total
      coal := base.coal / total
      biomass := base.biomass / total
      imports := base.imports / total }

/-- `computeIntensity` of `src/data/mock.ts`: `Math.round` of the sum of
`mix[key] * EMISSION_FACTORS[key]` over the seven keys. -/
def computeIntensity [FloorRing α] (mix : Mix α) : ℤ :=
  round (mix.wind * (EMISSION_FACTORS : Mix α).wind +
    mix.solar * (EMISSION_FACTORS : Mix α).solar +
    mix.hydro * (EMISSION_FACTORS : Mix α).hydro +
    mix.gas * (EMISSION_FACTORS : Mix α).gas +
    mix.coal * (EMISSION_FACTORS : Mix α).coal +
    mix.biomass * (EMISSION_FACTORS : Mix α).biomass +
    mix.imports * (EMISSION_FACTORS : Mix α).imports)

end Mock

namespace Eirgrid

/-- The `EMISSION_FACTORS` constant of the EirGrid data module (textually
identical to the mock module's copy). -/
def EMISSION_FACTORS : Mix α where
  wind := 12
  solar := 50
  hydro := 24
  gas := 400
  coal := 900
  biomass := 230
  imports := 300

/-- The fallback distribution of the EirGrid module's `normalizeMix`. -/
def fallbackMix : Mix α where
  wind := 0.3
  solar := 0.05
  hydro := 0.05
  gas := 0.45
  coal := 0.05
  biomass := 0.05
  imports := 0.05

/-- `normalizeMix` of the EirGrid data module (a second copy of the same
code). -/
def normalizeMix (raw : RawMix α) : Mix α :=
  let base := raw.withDefaults
  let total := sumMix base
  if total ≤ 0 then fallbackMix
  else
    { wind := base.wind / total
      solar := base.solar / total
      hydro := base.hydro / total
      gas := base.gas / total
      coal := base.coal / total
      biomass := base.biomass / total
      imports := base.imports / total }

/-- `computeIntensity` of the EirGrid data module (a second copy of the
same code). -/
def computeIntensity [FloorRing α] (mix : Mix α) : ℤ :=
  round (mix.wind * (EMISSION_FACTORS : Mix α).wind +
    mix.solar * (EMISSION_FACTORS : Mix α).solar +
    mix.hydro * (EMISSION_FACTORS : Mix α).hydro +
    mix.gas * (EMISSION_FACTORS : Mix α).gas +
    mix.coal * (EMISSION_FACTORS : Mix α).coal +
    mix.biomass * (EMISSION_FACTORS : Mix α).biomass +
    mix.imports * (EMISSION_FACTORS : Mix α).imports)

end Eirgrid

/-- Default (`?? 0`) raw field values are non-negative. -/
def RawNonneg (raw : RawMix α) : Prop := MixNonneg raw.withDefaults

/-- `DateRange` of `src/types.ts`: `'24h' | '48h' | '7d'`. -/
inductive DateRange
  | h24
  | h48
  | d7
deriving DecidableEq

/-- `getRangeHours` (identical in both data modules). -/
def getRangeHours : DateRange → ℕ
  | DateRange.h24 => 24
  | DateRange.h48 => 48
  | DateRange.d7 => 24 * 7

/-- `stepMinutes = range === '7d' ? 30 : 15` (identical in both
generators). -/
def stepMinutes (r : DateRange) : ℕ := if r = DateRange.d7 then 30 else 15

/-- `points = (hours * 60) / stepMinutes` (the division is exact for all
three ranges). -/
def numPoints (r : DateRange) : ℕ := getRangeHours r * 60 / stepMinutes r

/-- `t.getHours() + t.getMinutes() / 60` for a timestamp `t` in integer
minutes: the minutes-of-day, divided by 60. -/
def hourOfDay (t : ℤ) : ℚ := ((t.emod 1440 : ℤ) : ℚ) / 60

/-- `CarbonIntensityPoint` of `src/types.ts` (timestamp in minutes;
`gramsCO2PerKWh` is an integer after `Math.round`). -/
structure CarbonIntensityPoint where
  timestamp : ℤ
  gramsCO2PerKWh : ℤ

/-- `GenerationMixPoint` of `src/types.ts`. -/
structure GenerationMixPoint (α : Type) where
  timestamp : ℤ
  mix : Mix α

/-- The `{ intensity, generation }` result record of the generators. -/
structure SeriesResult where
  intensity : List CarbonIntensityPoint
  generation : List (GenerationMixPoint ℝ)

/-- The raw (pre-normalization) per-sample shares computed by the loop
body of `generateMockSeries` in `src/data/mock.ts`, at loop index `i`
out of `points`, for the sample timestamp `t` (in minutes). -/
noncomputable def mockRawMix (points i : ℕ) (t : ℤ) : Mix ℝ :=
  let h : ℝ := ((hourOfDay t : ℚ) : ℝ)
  let dayFactor := Real.sin (2 * Real.pi * (h - 3) / 24)
  let wind := clamp (0.35 + 0.2 * dayFactor) 0.1 0.75
  let solarBase := max 0 (Real.sin (Real.pi * (h - 6) / 12))
  let solar := clamp (0.18 * solarBase) 0 0.25
  let hydro := 0.05 + 0.02 * Real.sin (2 * Real.pi * i / ((points : ℝ) / 7))
  let coal := 0.04 + 0.01 * Real.sin (2 * Real.pi * i / ((points : ℝ) / 3))
  let biomass := 0.05
  let gas := clamp (0.4 + 0.1 * Real.cos (2 * Real.pi * h / 24) - (wind + solar - 0.3))
    0.05 0.7
  let imports := clamp (1 - (wind + solar + hydro + gas + coal + biomass)) 0.02 0.2
  { wind := wind, solar := solar, hydro := hydro, gas := gas, coal := coal,
    biomass := biomass, imports := imports }

/-- `generateMockSeries` of `src/data/mock.ts`, with the reference `now`
instant (in minutes) made explicit: for `i = 0 .. points` the loop pushes
a timestamp `start + i * stepMinutes`, normalizes the raw mix of the loop
body and computes its intensity. -/
noncomputable def generateMockSeries (now : ℤ) (r : DateRange) : SeriesResult :=
  let step := stepMinutes r
  let points := numPoints r
  let start : ℤ := now - 60 * getRangeHours r
  { intensity := (List.range (points + 1)).map fun (i : ℕ) =>
      let t := start + (i : ℤ) * (step : ℤ)
      { timestamp := t
        gramsCO2PerKWh :=
          Mock.computeIntensity (Mock.normalizeMix (mockRawMix points i t).toRaw) }
    generation := (List.range (points + 1)).map fun (i : ℕ) =>
      let t := start + (i : ℤ) * (step : ℤ)
      { timestamp := t
        mix := Mock.normalizeMix (mockRawMix points i t).toRaw } }

/-- `EirGridDataPoint` of the EirGrid data module (timestamp in
minutes). -/
structure EirGridDataPoint where
  timestamp : ℤ
  wind : ℝ
  solar : ℝ
  hydro : ℝ
  gas : ℝ
  coal : ℝ
  biomass : ℝ
  imports : ℝ
  total : ℝ

/-- The raw per-sample shares computed by the loop body of
`generateRealisticIrishData` in the EirGrid data module. -/
noncomputable def realisticRawMix (points i : ℕ) (t : ℤ) : Mix ℝ :=
  let h : ℝ := ((hourOfDay t : ℚ) : ℝ)
  let windBase : ℝ := 0.4
  let windVariation := Real.sin (2 * Real.pi * (h - 2) / 24) * 0.3
  let wind := max 0.1 (min 0.8 (windBase + windVariation))
  let solarBase := max 0 (Real.sin (Real.pi * (h - 6) / 12))
  let solar := max 0 (min 0.15 (0.12 * solarBase))
  let hydro := 0.08 + 0.03 * Real.sin (2 * Real.pi * i / ((points : ℝ) / 7))
  let gas := max 0.05 (min 0.6
    (0.35 + 0.1 * Real.cos (2 * Real.pi * h / 24) - (wind + solar - 0.3)))
  let coal := 0.02 + 0.01 * Real.sin (2 * Real.pi * i / ((points : ℝ) / 3))
  let biomass := 0.06
  let imports := max 0.02 (min 0.15 (1 - (wind + solar + hydro + gas + coal + biomass)))
  { wind := wind, solar := solar, hydro := hydro, gas := gas, coal := coal,
    biomass := biomass, imports := imports }

/-- `generateRealisticIrishData` of the EirGrid data module: the list of
raw `EirGridDataPoint`s (the `async` wrapper resolves immediately and is
dropped). -/
noncomputable def generateRealisticIrishData (now : ℤ) (r : DateRange) :
    List EirGridDataPoint :=
  let step := stepMinutes r
  let points := numPoints r
  let startDate : ℤ := now - 60 * getRangeHours r
  (List.range (points + 1)).map fun (i : ℕ) =>
    let t := startDate + (i : ℤ) * (step : ℤ)
    let m := realisticRawMix points i t
    { timestamp := t, wind := m.wind, solar := m.solar, hydro := m.hydro,
      gas := m.gas, coal := m.coal, biomass := m.biomass, imports := m.imports,
      total := m.wind + m.solar + m.hydro + m.gas + m.coal + m.biomass + m.imports }

/-- The three entries of the `Provider` union of `App.tsx`. -/
inductive Provider
  | mock
  | eirgrid
  | entsoe
deriving DecidableEq

/-- The per-field multiplicative scaling (`modifiedMix`) of
`generateProviderSpecificData` in `App.tsx`. -/
def rescaleMix (c m : Mix α) : Mix α where
  wind := m.wind * c.wind
  solar := m.solar * c.solar
  hydro := m.hydro * c.hydro
  gas := m.gas * c.gas
  coal := m.coal * c.coal
  biomass := m.biomass * c.biomass
  imports := m.imports * c.imports

/-- The inline re-normalization (`normalizedMix`) of
`generateProviderSpecificData`: divide every field by the total, with no
fallback branch. -/
def renormalize (m : Mix α) : Mix α :=
  let total := sumMix m
  { wind := m.wind / total, solar := m.solar / total, hydro := m.hydro / total,
    gas := m.gas / total, coal := m.coal / total, biomass := m.biomass / total,
    imports := m.imports / total }

/-- Field-wise multiplicative inverse of a scale vector. -/
def invMix (c : Mix α) : Mix α where
  wind := c.wind⁻¹
  solar := c.solar⁻¹
  hydro := c.hydro⁻¹
  gas := c.gas⁻¹
  coal := c.coal⁻¹
  biomass := c.biomass⁻¹
  imports := c.imports⁻¹

/-- The EirGrid-variant multipliers of `generateProviderSpecificData`
(wind ×1.3, solar ×1.2, hydro ×1, gas ×0.9, coal ×0.5, biomass ×1,
imports ×0.8). -/
def eirgridScales : Mix α where
  wind := 1.3
  solar := 1.2
  hydro := 1
  gas := 0.9
  coal := 0.5
  biomass := 1
  imports := 0.8

/-- The ENTSO-E-variant multipliers of `generateProviderSpecificData`
(wind ×1.5, solar ×1.8, hydro ×1.2, gas ×0.7, coal ×0.2, biomass ×1.3,
imports ×0.6). -/
def entsoeScales : Mix α where
  wind := 1.5
  solar := 1.8
  hydro := 1.2
  gas := 0.7
  coal := 0.2
  biomass := 1.3
  imports := 0.6

/-- `generateProviderSpecificData` of `App.tsx`: the mock pass-through,
and the EirGrid / ENTSO-E variants which scale every stored intensity by
0.8 / 0.6 and re-round, and rescale-then-renormalize every stored mix. -/
noncomputable def generateProviderSpecificData (p : Provider) (now : ℤ)
    (r : DateRange) : SeriesResult :=
  let baseData := generateMockSeries now r
  match p with
  | Provider.mock => baseData
  | Provider.eirgrid =>
    { intensity := baseData.intensity.map fun pt =>
        { pt with gramsCO2PerKWh := round ((pt.gramsCO2PerKWh : ℝ) * 0.8) }
      generation := baseData.generation.map fun pt =>
        { pt with mix := renormalize (rescaleMix eirgridScales pt.mix) } }
  | Provider.entsoe =>
    { intensity := baseData.intensity.map fun pt =>
        { pt with gramsCO2PerKWh := round ((pt.gramsCO2PerKWh : ℝ) * 0.6) }
      generation := baseData.generation.map fun pt =>
        { pt with mix := renormalize (rescaleMix entsoeScales pt.mix) } }

/-- `fetchENTSOEData` of the EirGrid data module: the body
unconditionally throws `'ENTSO-E integration not yet implemented'`
before constructing any result, so the rejected promise is modelled as
`Except.error` carrying the message — no intensity or generation points
exist in the error case. -/
def fetchENTSOEData : Except String SeriesResult :=
  Except.error "ENTSO-E integration not yet implemented"

theorem Mock.normalizeMix_cases (raw : RawMix α) :
    (sumMix raw.withDefaults ≤ 0 → Mock.normalizeMix raw = Mock.fallbackMix) ∧
    (0 < sumMix raw.withDefaults →
      Mock.normalizeMix raw =
        { wind := raw.withDefaults.wind / sumMix raw.withDefaults
          solar := raw.withDefaults.solar / sumMix raw.withDefaults
          hydro := raw.withDefaults.hydro / sumMix raw.withDefaults
          gas := raw.withDefaults.gas / sumMix raw.withDefaults
          coal := raw.withDefaults.coal / sumMix raw.withDefaults
          biomass := raw.withDefaults.biomass / sumMix raw.withDefaults
          imports := raw.withDefaults.imports / sumMix raw.withDefaults }) := by
  constructor
  · intro h
    simp [Mock.normalizeMix, h]
  · intro h
    simp [Mock.normalizeMix, not_le.mpr h]

theorem Mock.sum_normalizeMix (raw : RawMix α) :
    sumMix (Mock.normalizeMix raw) = 1 := by
  rcases le_or_lt (sumMix raw.withDefaults) 0 with h | h
  · rw [(Mock.normalizeMix_cases raw).1 h]
    norm_num [Mock.fallbackMix, sumMix]
  · rw [(Mock.normalizeMix_cases raw).2 h]
    have hne : sumMix raw.withDefaults ≠ 0 := ne_of_gt h
    simp only [sumMix] at hne ⊢
    rw [div_add_div_same, div_add_div_same, div_add_div_same, div_add_div_same,
      div_add_div_same, div_add_div_same]
    exact div_self hne

theorem Mock.normalizeMix_nonneg (raw : RawMix α) (h : RawNonneg raw) :
    MixNonneg (Mock.normalizeMix raw) := by
  obtain ⟨h1, h2, h3, h4, h5, h6, h7⟩ := h
  rcases le_or_lt (sumMix raw.withDefaults) 0 with ht | ht
  · rw [(Mock.normalizeMix_cases raw).1 ht]
    norm_num [Mock.fallbackMix, MixNonneg]
  · rw [(Mock.normalizeMix_cases raw).2 ht]
    exact ⟨div_nonneg h1 ht.le, div_nonneg h2 ht.le, div_nonneg h3 ht.le,
      div_nonneg h4 ht.le, div_nonneg h5 ht.le, div_nonneg h6 ht.le,
      div_nonneg h7 ht.le⟩

/-- C1: for every raw seven-field input, the normalized output's seven
fields sum to 1 (hence within the 1e-9 tolerance), the output is fully
populated (it is a total seven-field record whose sum is the sum of all
seven fields), no field is negative when the inputs are non-negative, and
the sum-to-1 postcondition holds in both the fallback branch
(`total ≤ 0`) and the division branch (`total > 0`). -/
theorem normalizeMix_postcondition (raw : RawMix α) :
    sumMix (Mock.normalizeMix raw) = 1 ∧
    |sumMix (Mock.normalizeMix raw) - 1| ≤ 1 / 1000000000 ∧
    (RawNonneg raw → MixNonneg (Mock.normalizeMix raw)) ∧
    (sumMix raw.withDefaults ≤ 0 → sumMix (Mock.normalizeMix raw) = 1) ∧
    (0 < sumMix raw.withDefaults → sumMix (Mock.normalizeMix raw) = 1) := by
  refine ⟨Mock.sum_normalizeMix raw, ?_, Mock.normalizeMix_nonneg raw, ?_, ?_⟩
  · rw [Mock.sum_normalizeMix raw]
    norm_num
  · intro _
    exact Mock.sum_normalizeMix raw
  · intro _
    exact Mock.sum_normalizeMix raw

theorem normalizeMix_postcondition_witness :
    RawNonneg (Mix.toRaw (Mock.fallbackMix : Mix ℚ)) ∧
    MixNonneg (Mock.normalizeMix (Mix.toRaw (Mock.fallbackMix : Mix ℚ))) ∧
    sumMix (Mock.normalizeMix (Mix.toRaw (Mock.fallbackMix : Mix ℚ))) = 1 := by
  have hraw : RawNonneg (Mix.toRaw (Mock.fallbackMix : Mix ℚ)) := by
    norm_num [RawNonneg, MixNonneg, Mix.toRaw, RawMix.withDefaults, Mock.fallbackMix]
  exact ⟨hraw, (normalizeMix_postcondition _).2.2.1 hraw,
    (normalizeMix_postcondition _).1⟩

/-- C2: a raw mix whose (defaulted) seven-field sum is `≤ 0` — in
particular the all-absent (hence all-zero) input — is sent to exactly the
fixed fallback distribution wind 0.30, solar 0.05, hydro 0.05, gas 0.45,
coal 0.05, biomass 0.05, imports 0.05; a raw mix with positive sum has
every field divided by the sum. -/
theorem normalizeMix_branches (raw : RawMix α) :
    (sumMix raw.withDefaults ≤ 0 → Mock.normalizeMix raw = Mock.fallbackMix) ∧
    (Mock.fallbackMix : Mix α) =
      { wind := 0.3, solar := 0.05, hydro := 0.05, gas := 0.45, coal := 0.05,
        biomass := 0.05, imports := 0.05 } ∧
    Mock.normalizeMix
        ({ wind := none, solar := none, hydro := none, gas := none,
           coal := none, biomass := none, imports := none } : RawMix α) =
      Mock.fallbackMix ∧
    (0 < sumMix raw.withDefaults →
      Mock.normalizeMix raw =
        { wind := raw.withDefaults.wind / sumMix raw.withDefaults
          solar := raw.withDefaults.solar / sumMix raw.withDefaults
          hydro := raw.withDefaults.hydro / sumMix raw.withDefaults
          gas := raw.withDefaults.gas / sumMix raw.withDefaults
          coal := raw.withDefaults.coal / sumMix raw.withDefaults
          biomass := raw.withDefaults.biomass / sumMix raw.withDefaults
          imports := raw.withDefaults.imports / sumMix raw.withDefaults }) := by
  refine ⟨(Mock.normalizeMix_cases raw).1, rfl, ?_, (Mock.normalizeMix_cases raw).2⟩
  apply (Mock.normalizeMix_cases _).1
  norm_num [RawMix.withDefaults, sumMix]

theorem normalizeMix_branches_witness :
    sumMix (RawMix.withDefaults
        ({ wind := some 0, solar := some 0, hydro := some 0, gas := some 0,
           coal := some 0, biomass := some 0, imports := some 0 } : RawMix ℚ)) ≤ 0 ∧
    Mock.normalizeMix
        ({ wind := some 0, solar := some 0, hydro := some 0, gas := some 0,
           coal := some 0, biomass := some 0, imports := some 0 } : RawMix ℚ) =
      Mock.fallbackMix := by
  have hz : sumMix (RawMix.withDefaults
      ({ wind := some 0, solar := some 0, hydro := some 0, gas := some 0,
         coal := some 0, biomass := some 0, imports := some 0 } : RawMix ℚ)) ≤ 0 := by
    norm_num [RawMix.withDefaults, sumMix]
  exact ⟨hz, (normalizeMix_branches _).1 hz⟩

/-- C3: the intensity calculator returns the rounded emission-factor
weighted sum (factors wind 12, solar 50, hydro 24, gas 400, coal 900,
biomass 230, imports 300), it is non-negative on any non-negative mix,
and it returns exactly 259 on the fallback distribution. -/
theorem computeIntensity_spec [FloorRing α] (mix : Mix α) :
    Mock.computeIntensity mix =
      round (mix.wind * 12 + mix.solar * 50 + mix.hydro * 24 + mix.gas * 400 +
        mix.coal * 900 + mix.biomass * 230 + mix.imports * 300) ∧
    (MixNonneg mix → 0 ≤ Mock.computeIntensity mix) ∧
    Mock.computeIntensity (Mock.fallbackMix : Mix ℚ) = 259 := by
  refine ⟨rfl, ?_, ?_⟩
  · rintro ⟨h1, h2, h3, h4, h5, h6, h7⟩
    have hx : (0 : α) ≤ mix.wind * 12 + mix.solar * 50 + mix.hydro * 24 +
        mix.gas * 400 + mix.coal * 900 + mix.biomass * 230 + mix.imports * 300 := by
      have e1 := mul_nonneg h1 (by norm_num : (0 : α) ≤ 12)
      have e2 := mul_nonneg h2 (by norm_num : (0 : α) ≤ 50)
      have e3 := mul_nonneg h3 (by norm_num : (0 : α) ≤ 24)
      have e4 := mul_nonneg h4 (by norm_num : (0 : α) ≤ 400)
      have e5 := mul_nonneg h5 (by norm_num : (0 : α) ≤ 900)
      have e6 := mul_nonneg h6 (by norm_num : (0 : α) ≤ 230)
      have e7 := mul_nonneg h7 (by norm_num : (0 : α) ≤ 300)
      linarith
    simp only [Mock.computeIntensity]
    rw [round_eq]
    refine Int.le_floor.mpr ?_
    push_cast
    simp only [Mock.EMISSION_FACTORS]
    linarith
  · norm_num [Mock.computeIntensity, Mock.fallbackMix, Mock.EMISSION_FACTORS, round_eq]

theorem computeIntensity_spec_witness :
    MixNonneg (Mock.fallbackMix : Mix ℚ) ∧
    0 ≤ Mock.computeIntensity (Mock.fallbackMix : Mix ℚ) := by
  have hm : MixNonneg (Mock.fallbackMix : Mix ℚ) := by
    norm_num [MixNonneg, Mock.fallbackMix]
  exact ⟨hm, (computeIntensity_spec (Mock.fallbackMix : Mix ℚ)).2.1 hm⟩

/-- C9: the two textually duplicated copies of the normalization and
intensity logic (mock module vs EirGrid module) are extensionally equal:
same normalizer on every raw mix, same intensity on every mix, and the
same emission-factor table. -/
theorem duplicated_modules_agree [FloorRing α] (raw : RawMix α) (mix : Mix α) :
    Mock.normalizeMix raw = Eirgrid.normalizeMix raw ∧
    Mock.computeIntensity mix = Eirgrid.computeIntensity mix ∧
    (Mock.EMISSION_FACTORS : Mix α) = Eirgrid.EMISSION_FACTORS ∧
    (Mock.fallbackMix : Mix α) = Eirgrid.fallbackMix :=
  ⟨rfl, rfl, rfl, rfl⟩

theorem generator_timestamps (r : DateRange) (now : ℤ) :
    (generateMockSeries now r).intensity.map CarbonIntensityPoint.timestamp =
      (List.range (numPoints r + 1)).map
        (fun i : ℕ => now - 60 * (getRangeHours r : ℤ) + (i : ℤ) * (stepMinutes r : ℤ)) := by
  simp only [generateMockSeries, List.map_map]
  rfl

theorem points_mul_step (r : DateRange) :
    numPoints r * stepMinutes r = getRangeHours r * 60 := by
  cases r <;> decide

/-- C4: every `DateRange` resolves to totalHours 24 / 48 / 168 and
stepMinutes 30 exactly when totalHours is 168 (else 15); each output
series has exactly `totalHours*60/stepMinutes + 1` points; consecutive
timestamps are exactly `stepMinutes` apart; the first timestamp is
`now − totalHours` and the last is `now` (minutes as the time unit). -/
theorem generator_range_resolution (r : DateRange) (now : ℤ) :
    (getRangeHours DateRange.h24 = 24 ∧ getRangeHours DateRange.h48 = 48 ∧
      getRangeHours DateRange.d7 = 168) ∧
    stepMinutes r = (if getRangeHours r = 168 then 30 else 15) ∧
    numPoints r * stepMinutes r = getRangeHours r * 60 ∧
    (generateMockSeries now r).intensity.length = getRangeHours r * 60 / stepMinutes r + 1 ∧
    (generateMockSeries now r).generation.length = getRangeHours r * 60 / stepMinutes r + 1 ∧
    (generateRealisticIrishData now r).length = getRangeHours r * 60 / stepMinutes r + 1 ∧
    (∀ i : ℕ, i < numPoints r →
      ((generateMockSeries now r).intensity.map CarbonIntensityPoint.timestamp)[i + 1]? =
        (((generateMockSeries now r).intensity.map CarbonIntensityPoint.timestamp)[i]?).map
          (fun x => x + (stepMinutes r : ℤ))) ∧
    ((generateMockSeries now r).intensity.map CarbonIntensityPoint.timestamp)[0]? =
      some (now - 60 * (getRangeHours r : ℤ)) ∧
    ((generateMockSeries now r).intensity.map CarbonIntensityPoint.timestamp)[numPoints r]? =
      some now := by
  refine ⟨⟨rfl, rfl, rfl⟩, by cases r <;> decide, points_mul_step r, ?_, ?_, ?_, ?_, ?_, ?_⟩
  · simp [generateMockSeries, numPoints]
  · simp [generateMockSeries, numPoints]
  · simp [generateRealisticIrishData, numPoints]
  · intro i hi
    rw [generator_timestamps]
    have h1 : i + 1 < numPoints r + 1 := by omega
    have h0 : i < numPoints r + 1 := by omega
    simp [List.getElem?_map, List.getElem?_range, h1, h0]
    ring
  · rw [generator_timestamps]
    simp [List.getElem?_map, List.getElem?_range]
  · rw [generator_timestamps]
    have h : numPoints r < numPoints r + 1 := by omega
    simp [List.getElem?_map, List.getElem?_range, h]
    have hmul : ((numPoints r : ℤ)) * (stepMinutes r : ℤ) = (getRangeHours r : ℤ) * 60 := by
      exact_mod_cast congrArg (fun n : ℕ => (n : ℤ)) (points_mul_step r)
    linarith

theorem generator_range_resolution_witness :
    0 < numPoints DateRange.h24 ∧
    ((generateMockSeries 0 DateRange.h24).intensity.map CarbonIntensityPoint.timestamp)[0 + 1]? =
      (((generateMockSeries 0 DateRange.h24).intensity.map CarbonIntensityPoint.timestamp)[0]?).map
        (fun x => x + (stepMinutes DateRange.h24 : ℤ)) :=
  ⟨by decide, (generator_range_resolution DateRange.h24 0).2.2.2.2.2.2.1 0 (by decide)⟩

theorem hourOfDay_nonneg (t : ℤ) : 0 ≤ hourOfDay t := by
  unfold hourOfDay
  apply div_nonneg _ (by norm_num)
  exact_mod_cast Int.emod_nonneg t (by norm_num)

theorem hourOfDay_lt_24 (t : ℤ) : hourOfDay t < 24 := by
  unfold hourOfDay
  rw [div_lt_iff₀ (by norm_num : (0:ℚ) < 60)]
  have h : t.emod 1440 < 1440 := Int.emod_lt_of_pos t (by norm_num)
  have : ((t.emod 1440 : ℤ) : ℚ) < 1440 := by exact_mod_cast h
  linarith

theorem solar_sine_nonpos {H : ℝ} (h0 : 0 ≤ H) (h24 : H < 24)
    (h : H < 6 ∨ 18 < H) : Real.sin (Real.pi * (H - 6) / 12) ≤ 0 := by
  rcases h with h | h
  · apply Real.sin_nonpos_of_nonnpos_of_neg_pi_le
    · nlinarith [mul_pos Real.pi_pos (show (0:ℝ) < 6 - H by linarith)]
    · nlinarith [mul_nonneg Real.pi_pos.le h0, Real.pi_pos]
  · have hx : 0 ≤ Real.sin (Real.pi * (H - 6) / 12 - Real.pi) := by
      apply Real.sin_nonneg_of_nonneg_of_le_pi
      · nlinarith [mul_pos Real.pi_pos (show (0:ℝ) < H - 18 by linarith)]
      · nlinarith [mul_pos Real.pi_pos (show (0:ℝ) < 24 - H by linarith), Real.pi_pos]
    rw [Real.sin_sub_pi] at hx
    linarith

/-- C5: in both generator variants the raw solar share is exactly 0
whenever the sample's fractional hour-of-day is below 6 or above 18: the
term `sin(π(h−6)/12)` is non-positive there (given `0 ≤ h < 24`, which
`hourOfDay` guarantees) and is cut off by the `max(0, ·)`. -/
theorem solar_zero_outside_daylight (points i : ℕ) (t : ℤ)
    (h : hourOfDay t < 6 ∨ 18 < hourOfDay t) :
    (mockRawMix points i t).solar = 0 ∧ (realisticRawMix points i t).solar = 0 := by
  have h0 : (0:ℝ) ≤ ((hourOfDay t : ℚ) : ℝ) := by exact_mod_cast hourOfDay_nonneg t
  have h24 : ((hourOfDay t : ℚ) : ℝ) < 24 := by exact_mod_cast hourOfDay_lt_24 t
  have h6 : ((hourOfDay t : ℚ) : ℝ) < 6 ∨ 18 < ((hourOfDay t : ℚ) : ℝ) := by
    rcases h with h | h
    · exact Or.inl (by exact_mod_cast h)
    · exact Or.inr (by exact_mod_cast h)
  have hs := solar_sine_nonpos h0 h24 h6
  constructor
  · simp only [mockRawMix, clamp]
    rw [max_eq_left hs]
    norm_num
  · simp only [realisticRawMix]
    rw [max_eq_left hs]
    norm_num

theorem solar_zero_outside_daylight_witness :
    (hourOfDay 0 < 6 ∨ 18 < hourOfDay 0) ∧ (mockRawMix 96 0 0).solar = 0 := by
  have hh : hourOfDay 0 < 6 ∨ 18 < hourOfDay 0 :=
    Or.inl (by norm_num [hourOfDay, Int.zero_emod])
  exact ⟨hh, (solar_zero_outside_daylight 96 0 0 hh).1⟩

/-- C6: at every sample of either generator variant, the raw wind share
lies in the configured clamp band: `[0.1, 0.75]` in the mock generator
and `[0.1, 0.8]` in the realistic generator. -/
theorem wind_clamp_band (points i : ℕ) (t : ℤ) :
    (0.1 ≤ (mockRawMix points i t).wind ∧ (mockRawMix points i t).wind ≤ 0.75) ∧
    (0.1 ≤ (realisticRawMix points i t).wind ∧ (realisticRawMix points i t).wind ≤ 0.8) := by
  refine ⟨⟨?_, ?_⟩, ⟨?_, ?_⟩⟩
  · simp only [mockRawMix, clamp]
    exact le_max_left _ _
  · simp only [mockRawMix, clamp]
    exact max_le (by norm_num) (min_le_left _ _)
  · simp only [realisticRawMix]
    exact le_max_left _ _
  · simp only [realisticRawMix]
    exact max_le (by norm_num) (min_le_left _ _)

/-- C7: the unimplemented ENTSO-E provider entrypoint always fails with
the `'ENTSO-E integration not yet implemented'` error, never succeeds,
and carries no partial result (its success projection is `none`). -/
theorem entsoe_stub_always_fails :
    fetchENTSOEData = Except.error "ENTSO-E integration not yet implemented" ∧
    fetchENTSOEData.isOk = false ∧
    fetchENTSOEData.toOption = none :=
  ⟨rfl, rfl, rfl⟩

theorem sum_renormalize (m : Mix α) (h : sumMix m ≠ 0) :
    sumMix (renormalize m) = 1 := by
  simp only [renormalize, sumMix] at h ⊢
  rw [div_add_div_same, div_add_div_same, div_add_div_same, div_add_div_same,
    div_add_div_same, div_add_div_same]
  exact div_self h

theorem sum_rescale_pos (c m : Mix α) (hc : MixPos c) (hm : MixNonneg m)
    (hsum : sumMix m = 1) : 0 < sumMix (rescaleMix c m) := by
  obtain ⟨c1, c2, c3, c4, c5, c6, c7⟩ := hc
  obtain ⟨m1, m2, m3, m4, m5, m6, m7⟩ := hm
  have t1 := mul_nonneg m1 c1.le
  have t2 := mul_nonneg m2 c2.le
  have t3 := mul_nonneg m3 c3.le
  have t4 := mul_nonneg m4 c4.le
  have t5 := mul_nonneg m5 c5.le
  have t6 := mul_nonneg m6 c6.le
  have t7 := mul_nonneg m7 c7.le
  simp only [sumMix] at hsum
  simp only [rescaleMix, sumMix]
  have hone : 0 < m.wind ∨ 0 < m.solar ∨ 0 < m.hydro ∨ 0 < m.gas ∨ 0 < m.coal ∨
      0 < m.biomass ∨ 0 < m.imports := by
    by_contra hcon
    push_neg at hcon
    obtain ⟨n1, n2, n3, n4, n5, n6, n7⟩ := hcon
    linarith
  rcases hone with hp | hp | hp | hp | hp | hp | hp
  · linarith [mul_pos hp c1]
  · linarith [mul_pos hp c2]
  · linarith [mul_pos hp c3]
  · linarith [mul_pos hp c4]
  · linarith [mul_pos hp c5]
  · linarith [mul_pos hp c6]
  · linarith [mul_pos hp c7]

theorem renormalize_rescale_nonneg (c m : Mix α) (hc : MixPos c) (hm : MixNonneg m)
    (hsum : sumMix m = 1) : MixNonneg (renormalize (rescaleMix c m)) := by
  have hpos := sum_rescale_pos c m hc hm hsum
  obtain ⟨c1, c2, c3, c4, c5, c6, c7⟩ := hc
  obtain ⟨m1, m2, m3, m4, m5, m6, m7⟩ := hm
  refine ⟨?_, ?_, ?_, ?_, ?_, ?_, ?_⟩ <;>
    exact div_nonneg (by simp only [rescaleMix]; positivity) hpos.le

/-- C8: scaling a normalized mix field-wise by positive factors and
re-normalizing yields a mix summing to 1 (in particular with this code's
EirGrid and ENTSO-E multipliers), and applying the transform a second
time with the inverse scale factors again yields a mix summing to 1. -/
theorem rescale_renormalize_sums_to_one (c m : Mix α) (hc : MixPos c)
    (hm : MixNonneg m) (hsum : sumMix m = 1) :
    sumMix (renormalize (rescaleMix c m)) = 1 ∧
    MixNonneg (renormalize (rescaleMix c m)) ∧
    sumMix (renormalize (rescaleMix (invMix c)
      (renormalize (rescaleMix c m)))) = 1 ∧
    sumMix (renormalize (rescaleMix eirgridScales m)) = 1 ∧
    sumMix (renormalize (rescaleMix entsoeScales m)) = 1 := by
  have hs1 := sum_renormalize _ (sum_rescale_pos c m hc hm hsum).ne'
  have hn1 := renormalize_rescale_nonneg c m hc hm hsum
  obtain ⟨c1, c2, c3, c4, c5, c6, c7⟩ := hc
  have hcinv : MixPos (invMix c) :=
    ⟨inv_pos.mpr c1, inv_pos.mpr c2, inv_pos.mpr c3, inv_pos.mpr c4,
      inv_pos.mpr c5, inv_pos.mpr c6, inv_pos.mpr c7⟩
  have heir : MixPos (eirgridScales : Mix α) := by
    refine ⟨?_, ?_, ?_, ?_, ?_, ?_, ?_⟩ <;> norm_num [eirgridScales]
  have hent : MixPos (entsoeScales : Mix α) := by
    refine ⟨?_, ?_, ?_, ?_, ?_, ?_, ?_⟩ <;> norm_num [entsoeScales]
  refine ⟨hs1, hn1, ?_, ?_, ?_⟩
  · exact sum_renormalize _ (sum_rescale_pos _ _ hcinv hn1 hs1).ne'
  · exact sum_renormalize _ (sum_rescale_pos _ _ heir hm hsum).ne'
  · exact sum_renormalize _ (sum_rescale_pos _ _ hent hm hsum).ne'

theorem rescale_renormalize_sums_to_one_witness :
    MixPos (eirgridScales : Mix ℚ) ∧ MixNonneg (Mock.fallbackMix : Mix ℚ) ∧
    sumMix (Mock.fallbackMix : Mix ℚ) = 1 ∧
    sumMix (renormalize (rescaleMix (eirgridScales : Mix ℚ)
      (Mock.fallbackMix : Mix ℚ))) = 1 := by
  have h1 : MixPos (eirgridScales : Mix ℚ) := by
    refine ⟨?_, ?_, ?_, ?_, ?_, ?_, ?_⟩ <;> norm_num [eirgridScales]
  have h2 : MixNonneg (Mock.fallbackMix : Mix ℚ) := by
    refine ⟨?_, ?_, ?_, ?_, ?_, ?_, ?_⟩ <;> norm_num [Mock.fallbackMix]
  have h3 : sumMix (Mock.fallbackMix : Mix ℚ) = 1 := by
    norm_num [sumMix, Mock.fallbackMix]
  exact ⟨h1, h2, h3, (rescale_renormalize_sums_to_one _ _ h1 h2 h3).1⟩

/-- C10: the provider variants publish `round(scale × base intensity)`
with scale 0.8 (EirGrid) and 0.6 (ENTSO-E), mapping the stored integer
of the base mock series rather than recomputing from the transformed
mix; on the fallback distribution (base intensity 259) the published
value `round(0.8·259) = 207` differs from the emission-factor
recomputation over the rescaled re-normalized mix (213). -/
theorem provider_intensity_scaling (r : DateRange) (now : ℤ) :
    (generateProviderSpecificData Provider.eirgrid now r).intensity =
      (generateMockSeries now r).intensity.map
        (fun pt => { pt with gramsCO2PerKWh := round ((pt.gramsCO2PerKWh : ℝ) * 0.8) }) ∧
    (generateProviderSpecificData Provider.entsoe now r).intensity =
      (generateMockSeries now r).intensity.map
        (fun pt => { pt with gramsCO2PerKWh := round ((pt.gramsCO2PerKWh : ℝ) * 0.6) }) ∧
    Mock.computeIntensity (Mock.fallbackMix : Mix ℚ) = 259 ∧
    round ((259 : ℚ) * 0.8) ≠
      Mock.computeIntensity (renormalize (rescaleMix eirgridScales
        (Mock.fallbackMix : Mix ℚ))) := by
  refine ⟨rfl, rfl, ?_, ?_⟩
  · norm_num [Mock.computeIntensity, Mock.fallbackMix, Mock.EMISSION_FACTORS, round_eq]
  · norm_num [Mock.computeIntensity, Mock.fallbackMix, Mock.EMISSION_FACTORS,
      renormalize, rescaleMix, eirgridScales, sumMix, round_eq]

end IrelandCarbonViz
